import Mathlib

/-!
Verification of the Country Financial Insights aggregator.

Shallow embedding of the Python modules `currency_tool.py`, `stock_tool.py`,
`maps_tool.py` and `agent.py`.  Remote HTTP calls are modelled by explicit
oracle values describing the outcome of each call (an exception raised, or a
response with a status code and a decoded JSON body); everything else is a
direct translation of the source.  Python floats carried through unchanged are
modelled as rationals (no arithmetic is ever performed on them).
-/

/-- Association-list lookup, modelling Python `dict` access (`d.get(k)` /
`k in d` / `d[k]`) for dictionaries whose insertion order we keep as a list. -/
def alistGet {α : Type} (l : List (String × α)) (k : String) : Option α :=
  (l.find? (fun p => p.1 == k)).map (fun p => p.2)

/-- Model of Python `str.strip()` (ASCII whitespace at both ends). -/
def pyStrip (s : String) : String :=
  String.mk (((s.data.dropWhile Char.isWhitespace).reverse.dropWhile Char.isWhitespace).reverse)

/-- Model of one character of Python `str.lower()` (ASCII range). -/
def charLower (c : Char) : Char :=
  if 'A' ≤ c ∧ c ≤ 'Z' then Char.ofNat (c.toNat + 32) else c

/-- Model of Python `str.lower()` (ASCII range). -/
def pyLower (s : String) : String :=
  String.mk (s.data.map charLower)

/-- Model of one character of Python `str.upper()` (ASCII range). -/
def charUpper (c : Char) : Char :=
  if 'a' ≤ c ∧ c ≤ 'z' then Char.ofNat (c.toNat - 32) else c

/-- Model of Python `str.upper()` (ASCII range). -/
def pyUpper (s : String) : String :=
  String.mk (s.data.map charUpper)

/-- Model of Python slicing `s[:n]` (by characters, as Python slices by code
points). -/
def pyTake (s : String) (n : Nat) : String :=
  String.mk (s.data.take n)

/-- Model of Python `s.replace(a, b)` for a single-character pattern and
single-character replacement (each occurrence of the character is replaced). -/
def pyReplaceChar (s : String) (a b : Char) : String :=
  String.mk (s.data.map (fun c => if c == a then b else c))

/-- A JSON scalar as seen by the Python code when it reads a provider value:
`null`, a number, or a string.  Python `float()` succeeds on numbers and on
numeric strings and raises `TypeError`/`ValueError` otherwise. -/
inductive PyVal where
  | pynull : PyVal
  | num : ℚ → PyVal
  | str : String → PyVal
deriving Repr, DecidableEq

/-- Value of a run of decimal digit characters. -/
def digitsToNat (l : List Char) : Nat :=
  l.foldl (fun a c => a * 10 + (c.toNat - 48)) 0

/-- Model of Python `float(s)` on a plain decimal literal: optional surrounding
whitespace, optional sign, digits with an optional fractional part.  Returns
`none` where Python raises `ValueError`. -/
def pyFloatOfString (s : String) : Option ℚ :=
  let t := (pyStrip s).data
  let signed : ℚ × List Char :=
    match t with
    | '-' :: r => (-1, r)
    | '+' :: r => (1, r)
    | _ => (1, t)
  let sign := signed.1
  let body := signed.2
  let intPart := body.takeWhile Char.isDigit
  let rest := body.dropWhile Char.isDigit
  match rest with
  | [] =>
    if intPart.isEmpty then none
    else some (sign * (digitsToNat intPart : ℚ))
  | '.' :: frac =>
    if frac.all Char.isDigit ∧ ¬ (intPart.isEmpty ∧ frac.isEmpty) then
      some (sign * ((digitsToNat intPart : ℚ) + (digitsToNat frac : ℚ) / (10 : ℚ) ^ frac.length))
    else none
  | _ => none

/-- Model of Python `float(v)` on a JSON scalar: numbers pass through, numeric
strings parse, `null` and non-numeric strings fail (`TypeError`/`ValueError`). -/
def pyFloat (v : PyVal) : Option ℚ :=
  match v with
  | .pynull => none
  | .num q => some q
  | .str s => pyFloatOfString s

/-- Python truthiness of an optional string (`if not api_key:` is taken when
the variable is `None` or the empty string). -/
def pyTruthyStr (s : Option String) : Bool :=
  match s with
  | none => false
  | some t => t ≠ ""

/-! ## currency_tool.py -/

/-- One entry of the static country → currency table. -/
structure CurrencyEntry where
  code : String
  name : String
deriving Repr, DecidableEq

/-- Static table `COUNTRY_CURRENCY_MAP` from `currency_tool.py`. -/
def COUNTRY_CURRENCY_MAP : List (String × CurrencyEntry) :=
  [("india", ⟨"INR", "Indian Rupee"⟩),
   ("united states", ⟨"USD", "United States Dollar"⟩),
   ("united states of america", ⟨"USD", "United States Dollar"⟩),
   ("usa", ⟨"USD", "United States Dollar"⟩),
   ("japan", ⟨"JPY", "Japanese Yen"⟩),
   ("united kingdom", ⟨"GBP", "Pound Sterling"⟩),
   ("uk", ⟨"GBP", "Pound Sterling"⟩),
   ("great britain", ⟨"GBP", "Pound Sterling"⟩),
   ("south korea", ⟨"KRW", "South Korean Won"⟩),
   ("republic of korea", ⟨"KRW", "South Korean Won"⟩),
   ("korea, republic of", ⟨"KRW", "South Korean Won"⟩),
   ("china", ⟨"CNY", "Chinese Yuan Renminbi"⟩),
   ("people\x27s republic of china", ⟨"CNY", "Chinese Yuan Renminbi"⟩)]

/-- `_normalize_country` from `currency_tool.py` / `stock_tool.py`:
`country.strip().lower()`. -/
def _normalize_country (country : String) : String :=
  pyLower (pyStrip country)

/-- Per-currency info object in a RestCountries response entry
(`{"name": ..., "symbol": ...}`); the code only reads `name` via
`info.get("name", "")`. -/
structure RCCurrencyInfo where
  name : Option String
deriving Repr, DecidableEq

/-- One country object of a RestCountries response: its `currencies` mapping in
insertion order.  An absent or `null` `currencies` field (`.get("currencies")
or {}`) is modelled by the empty list. -/
structure RCCountry where
  currencies : List (String × RCCurrencyInfo)
deriving Repr, DecidableEq

/-- Outcome of the `requests.get` call to RestCountries (together with
`resp.json()`): either some exception was raised inside the `try` block, or a
response with a status code and a decoded body arrived. -/
inductive RestCountriesOutcome where
  | raise : String → RestCountriesOutcome
  | resp : Nat → List RCCountry → RestCountriesOutcome
deriving Repr, DecidableEq

/-- Result dictionary of `get_currency_for_country`; absent keys are `none`. -/
structure CurrencyInfo where
  country : String
  currency_name : Option String := none
  currency_code : Option String := none
  source : Option String := none
  error : Option String := none
deriving Repr, DecidableEq

/-- Tail of `get_currency_for_country`: handling of the first country's
`currencies` mapping (`if not currencies:` error, else first-entry-wins). -/
def gcfcFromCurrencies (country : String) (currencies : List (String × RCCurrencyInfo)) :
    CurrencyInfo :=
  match currencies with
  | [] =>
    { country := pyStrip country
      error := some "No currency information available for this country." }
  | (code, info) :: _ =>
    { country := pyStrip country
      currency_name := some (info.name.getD "")
      currency_code := some code
      source := some "restcountries" }

/-- Handling of the decoded RestCountries body inside `get_currency_for_country`
(`if not data:` error, else read the first country's currencies). -/
def gcfcFromData (country : String) (data : List RCCountry) : CurrencyInfo :=
  match data with
  | [] =>
    { country := pyStrip country
      error := some "No country data returned from RestCountries." }
  | first :: _ => gcfcFromCurrencies country first.currencies

/-- The `try` block of `get_currency_for_country`: the RestCountries fallback
with its status check and exception handler. -/
def gcfcRemote (country : String) (o : RestCountriesOutcome) : CurrencyInfo :=
  match o with
  | .raise exc =>
    { country := pyStrip country
      error := some ("Exception while resolving currency: " ++ exc) }
  | .resp status data =>
    if status ≠ 200 then
      { country := pyStrip country
        error := some ("Failed to resolve currency via RestCountries (status "
          ++ toString status ++ ").") }
    else gcfcFromData country data

/-- `get_currency_for_country` from `currency_tool.py`: local mapping first,
RestCountries fallback otherwise.  The remote call is abstracted by `o`. -/
def get_currency_for_country (country : String) (o : RestCountriesOutcome) : CurrencyInfo :=
  match alistGet COUNTRY_CURRENCY_MAP (_normalize_country country) with
  | some mapping =>
    { country := pyStrip country
      currency_name := some mapping.name
      currency_code := some mapping.code
      source := some "local_mapping" }
  | none => gcfcRemote country o

/-- Fixed list `target_currencies` from `get_exchange_rates_for_currency`. -/
def target_currencies : List String := ["USD", "INR", "GBP", "EUR"]

/-- Query parameters of the CurrencyAPI request as built by
`get_exchange_rates_for_currency` (the `currencies` parameter joins the four
fixed targets, independent of the base). -/
def currencyApiParams (api_key base : String) : List (String × String) :=
  [("apikey", api_key),
   ("base_currency", base),
   ("currencies", String.intercalate "," target_currencies)]

/-- One per-code entry of the CurrencyAPI `data` object; the code reads
`entry.get("value", 0.0)`, so the `value` field may be absent. -/
structure RateEntry where
  value : Option PyVal
deriving Repr, DecidableEq

/-- Outcome of the `requests.get` call to CurrencyAPI (together with
`resp.json()`): an exception, or a response with status, text, and the decoded
`data` object (insertion order kept; an absent `data` key is the empty list). -/
inductive CurrencyApiOutcome where
  | raise : String → CurrencyApiOutcome
  | resp : Nat → String → List (String × RateEntry) → CurrencyApiOutcome
deriving Repr, DecidableEq

/-- Result dictionary of `get_exchange_rates_for_currency`; absent keys are
`none`.  `base_currency` is optional because the aggregator's fallback object
omits it. -/
structure ExchangeRateSet where
  base_currency : Option String := none
  rates : Option (List (String × ℚ)) := none
  provider : Option String := none
  error : Option String := none
deriving Repr, DecidableEq

/-- The `rates` accumulation loop of `get_exchange_rates_for_currency`: for
each target code present in `data`, coerce `entry.get("value", 0.0)` with
`float(...)`, skipping entries on `TypeError`/`ValueError`. -/
def collectRates (data : List (String × RateEntry)) : List (String × ℚ) :=
  target_currencies.filterMap (fun code =>
    (alistGet data code).bind (fun entry =>
      (pyFloat (entry.value.getD (PyVal.num 0))).map (fun q => (code, q))))

/-- Handling of the decoded CurrencyAPI body inside
`get_exchange_rates_for_currency`: collect the rates, error when none
survived coercion. -/
def fxFromData (base : String) (data : List (String × RateEntry)) : ExchangeRateSet :=
  let rates := collectRates data
  if rates.isEmpty then
    { base_currency := some base
      error := some "No valid rates returned by CurrencyAPI." }
  else
    { base_currency := some base
      rates := some rates
      provider := some "currencyapi.com" }

/-- The `try` block of `get_exchange_rates_for_currency`: the CurrencyAPI call
with its status check and exception handler. -/
def fxRemote (base : String) (o : CurrencyApiOutcome) : ExchangeRateSet :=
  match o with
  | .raise exc =>
    { base_currency := some base
      error := some ("Exception while calling CurrencyAPI: " ++ exc) }
  | .resp status text data =>
    if status ≠ 200 then
      { base_currency := some base
        error := some ("CurrencyAPI request failed with status " ++ toString status
          ++ ": " ++ pyTake text 200) }
    else fxFromData base data

/-- `get_exchange_rates_for_currency` from `currency_tool.py`.  The API key
read from the environment is the parameter `api_key`; the remote call is
abstracted by `o`. -/
def get_exchange_rates_for_currency (currency_code : String) (api_key : Option String)
    (o : CurrencyApiOutcome) : ExchangeRateSet :=
  let base := pyUpper (pyStrip currency_code)
  if ¬ pyTruthyStr api_key then
    { base_currency := some base
      error := some "CURRENCY_API_KEY is not set. Sign up at https://currencyapi.com/ and add it to your .env file." }
  else fxRemote base o

/-! ## maps_tool.py -/

/-- UTF-8 encoding of one code point, as byte values. -/
def utf8Bytes (c : Nat) : List Nat :=
  if c < 0x80 then [c]
  else if c < 0x800 then [0xC0 + c / 64, 0x80 + c % 64]
  else if c < 0x10000 then [0xE0 + c / 4096, 0x80 + (c / 64) % 64, 0x80 + c % 64]
  else [0xF0 + c / 262144, 0x80 + (c / 4096) % 64, 0x80 + (c / 64) % 64, 0x80 + c % 64]

/-- UTF-8 bytes of a string (Python's `quote` encodes the string to UTF-8
before percent-encoding). -/
def strBytes (s : String) : List Nat :=
  (s.data.map (fun c => utf8Bytes c.toNat)).flatten

/-- The always-safe bytes of `urllib.parse.quote`: ASCII letters, digits, and
`_ . - ~`. -/
def alwaysSafeByte (b : Nat) : Bool :=
  (65 ≤ b ∧ b ≤ 90) ∨ (97 ≤ b ∧ b ≤ 122) ∨ (48 ≤ b ∧ b ≤ 57)
    ∨ b = 95 ∨ b = 46 ∨ b = 45 ∨ b = 126

/-- Upper-case hexadecimal digit. -/
def hexDigitChar (n : Nat) : Char :=
  if n < 10 then Char.ofNat (48 + n) else Char.ofNat (55 + n)

/-- Percent-encoding of one byte (`%XX`, upper-case). -/
def pctEncodeByte (b : Nat) : List Char :=
  ['%', hexDigitChar (b / 16), hexDigitChar (b % 16)]

/-- Model of `urllib.parse.quote(s, safe)`: every UTF-8 byte not always-safe
and not in `safe` is percent-encoded. -/
def urlQuote (s : String) (safe : List Nat) : String :=
  String.mk ((strBytes s).map (fun b =>
    if alwaysSafeByte b ∨ b ∈ safe then [Char.ofNat b] else pctEncodeByte b)).flatten

/-- Model of `urllib.parse.quote_plus(s)`: when the string contains a space,
quote with space kept safe and then replace each space with `+`; otherwise
plain quoting with no extra safe characters. -/
def quote_plus (s : String) : String :=
  if s.data.contains ' ' then pyReplaceChar (urlQuote s [32]) ' ' '+'
  else urlQuote s []

/-- `get_google_maps_link_for_address` from `maps_tool.py`. -/
def get_google_maps_link_for_address (address : String) : String :=
  "https://www.google.com/maps/search/?api=1&query=" ++ quote_plus (pyStrip address)

/-! ## stock_tool.py -/

/-- Dataclass `StockIndex` from `stock_tool.py`. -/
structure StockIndex where
  symbol : String
  name : String
deriving Repr, DecidableEq

/-- Dataclass `StockExchange` from `stock_tool.py`. -/
structure StockExchange where
  name : String
  city : String
  country : String
  headquarters_address : String
  indices : List StockIndex
deriving Repr, DecidableEq

/-- Static table `COUNTRY_STOCK_PROFILE` from `stock_tool.py`. -/
def COUNTRY_STOCK_PROFILE : List (String × List StockExchange) :=
  [("india",
    [{ name := "National Stock Exchange of India (NSE)"
       city := "Mumbai"
       country := "India"
       headquarters_address := "Exchange Plaza, Bandra Kurla Complex, Bandra East, Mumbai, Maharashtra 400051, India"
       indices := [⟨"^NSEI", "Nifty 50"⟩, ⟨"^CNX100", "Nifty 100"⟩] },
     { name := "Bombay Stock Exchange (BSE)"
       city := "Mumbai"
       country := "India"
       headquarters_address := "Phiroze Jeejeebhoy Towers, Dalal Street, Fort, Mumbai, Maharashtra 400001, India"
       indices := [⟨"^BSESN", "BSE Sensex"⟩] }]),
   ("united states",
    [{ name := "New York Stock Exchange (NYSE)"
       city := "New York"
       country := "United States"
       headquarters_address := "11 Wall St, New York, NY 10005, USA"
       indices := [⟨"^GSPC", "S&P 500"⟩, ⟨"^DJI", "Dow Jones Industrial Average"⟩] },
     { name := "NASDAQ Stock Market"
       city := "New York"
       country := "United States"
       headquarters_address := "151 W 42nd St, New York, NY 10036, USA"
       indices := [⟨"^IXIC", "NASDAQ Composite"⟩] }]),
   ("usa", []),
   ("united states of america", []),
   ("japan",
    [{ name := "Tokyo Stock Exchange (TSE)"
       city := "Tokyo"
       country := "Japan"
       headquarters_address := "2-1 Nihonbashi Kabutocho, Chuo City, Tokyo 103-8224, Japan"
       indices := [⟨"^N225", "Nikkei 225"⟩, ⟨"^TOPX", "TOPIX"⟩] }]),
   ("united kingdom",
    [{ name := "London Stock Exchange (LSE)"
       city := "London"
       country := "United Kingdom"
       headquarters_address := "10 Paternoster Square, London EC4M 7LS, United Kingdom"
       indices := [⟨"^FTSE", "FTSE 100"⟩, ⟨"^FTMC", "FTSE 250"⟩] }]),
   ("uk", []),
   ("south korea",
    [{ name := "Korea Exchange (KRX) - Stock Market Division"
       city := "Seoul"
       country := "South Korea"
       headquarters_address := "76 Yeouinaru-ro, Yeongdeungpo-gu, Seoul, South Korea"
       indices := [⟨"^KS11", "KOSPI"⟩, ⟨"^KQ11", "KOSDAQ"⟩] }]),
   ("china",
    [{ name := "Shanghai Stock Exchange (SSE)"
       city := "Shanghai"
       country := "China"
       headquarters_address := "528 Pudong South Road, Pudong, Shanghai, China"
       indices := [⟨"000001.SS", "SSE Composite Index"⟩] },
     { name := "Shenzhen Stock Exchange (SZSE)"
       city := "Shenzhen"
       country := "China"
       headquarters_address := "2012 Shennan Blvd, Futian District, Shenzhen, Guangdong, China"
       indices := [⟨"399001.SZ", "SZSE Component Index"⟩] }])]

/-- `_resolve_profile_key` from `stock_tool.py`: canonical key when the
normalized input has a non-empty entry, alias redirection otherwise. -/
def _resolve_profile_key (country : String) : String :=
  let norm := _normalize_country country
  match alistGet COUNTRY_STOCK_PROFILE norm with
  | some (_ :: _) => norm
  | _ =>
    if norm = "usa" ∨ norm = "united states of america" then "united states"
    else if norm = "uk" ∨ norm = "great britain" ∨ norm = "england" then "united kingdom"
    else norm

/-- Outcome of the Yahoo Finance call made by `_fetch_latest_price` for one
symbol: an exception anywhere in the `try` block, or a history whose `Close`
column contains the given values in order (`hist is None or hist.empty` is the
empty list). -/
inductive YfOutcome where
  | raise : YfOutcome
  | hist : List ℚ → YfOutcome
deriving Repr, DecidableEq

/-- `_fetch_latest_price` from `stock_tool.py`: the most recent close of the
1-day history, `None` on empty history or on any exception. -/
def _fetch_latest_price (symbol : String) (o : String → YfOutcome) : Option ℚ :=
  match o symbol with
  | .raise => none
  | .hist closes => closes.getLast?

/-- One index entry of the result of `get_country_stock_profile`
(`last_price` is `null` when no price resolved). -/
structure IndexQuote where
  symbol : String
  name : String
  last_price : Option ℚ
deriving Repr, DecidableEq

/-- One exchange entry of the result of `get_country_stock_profile`
(`asdict(ex)` with the `indices` list replaced by priced entries). -/
structure ExchangeResult where
  name : String
  city : String
  country : String
  headquarters_address : String
  indices : List IndexQuote
deriving Repr, DecidableEq

/-- Result dictionary of `get_country_stock_profile`; the `error` key is
optional. -/
structure CountryStockProfileResult where
  country : String
  exchanges : List ExchangeResult
  error : Option String := none
deriving Repr, DecidableEq

/-- Price enrichment of one configured exchange, as performed by the inner
loop of `get_country_stock_profile`. -/
def enrichExchange (o : String → YfOutcome) (ex : StockExchange) : ExchangeResult :=
  { name := ex.name
    city := ex.city
    country := ex.country
    headquarters_address := ex.headquarters_address
    indices := ex.indices.map (fun idx =>
      { symbol := idx.symbol
        name := idx.name
        last_price := _fetch_latest_price idx.symbol o }) }

/-- `get_country_stock_profile` from `stock_tool.py`.  Per-symbol price
fetches are abstracted by `o`. -/
def get_country_stock_profile (country : String) (o : String → YfOutcome) :
    CountryStockProfileResult :=
  let country_clean := pyStrip country
  let key := _resolve_profile_key country
  let exchanges := (alistGet COUNTRY_STOCK_PROFILE key).getD []
  if exchanges.isEmpty then
    { country := country_clean
      exchanges := []
      error := some "No stock exchange profile configured for this country." }
  else
    { country := country_clean
      exchanges := exchanges.map (enrichExchange o) }

/-! ## agent.py -/

/-- Result dictionary of `build_country_financial_profile`. -/
structure CountryFinancialProfile where
  country : String
  currency : CurrencyInfo
  exchange_rates : ExchangeRateSet
  stocks : CountryStockProfileResult
  main_exchange_hq_address : Option String
  google_maps_link : Option String
deriving Repr, DecidableEq

/-- `build_country_financial_profile` from `agent.py`: the orchestrator.  The
three remote boundaries are abstracted by `rcO` (RestCountries), `api_key` and
`fxO` (CurrencyAPI), and `yfO` (Yahoo Finance per-symbol). -/
def build_country_financial_profile (country : String) (rcO : RestCountriesOutcome)
    (api_key : Option String) (fxO : CurrencyApiOutcome) (yfO : String → YfOutcome) :
    CountryFinancialProfile :=
  let c := pyStrip country
  let currency_info := get_currency_for_country c rcO
  let fx_rates :=
    match currency_info.currency_code with
    | some code => get_exchange_rates_for_currency code api_key fxO
    | none =>
      { base_currency := none
        rates := none
        provider := none
        error := some "Could not determine currency code for this country; FX rates unavailable." }
  let stock_profile := get_country_stock_profile c yfO
  let hqLink : Option String × Option String :=
    match stock_profile.exchanges with
    | [] => (none, none)
    | main_exchange :: _ =>
      (some main_exchange.headquarters_address,
       if main_exchange.headquarters_address ≠ "" then
         some (get_google_maps_link_for_address main_exchange.headquarters_address)
       else none)
  { country := c
    currency := currency_info
    exchange_rates := fx_rates
    stocks := stock_profile
    main_exchange_hq_address := hqLink.1
    google_maps_link := hqLink.2 }

/-- A healthy CurrencyAPI outcome used in the end-to-end India scenario: a 200
response carrying numeric values for all four target codes. -/
def fxHealthyIndia : CurrencyApiOutcome :=
  CurrencyApiOutcome.resp 200 ""
    [("USD", { value := some (PyVal.num 12) }),
     ("INR", { value := some (PyVal.num 1) }),
     ("GBP", { value := some (PyVal.num 9) }),
     ("EUR", { value := some (PyVal.num 11) })]

/-! ## General lemmas about the embedding -/

/-- The exchanges of a stock profile are always the price-enriched configured
list for the resolved key (the empty-catalog branch returns the empty map). -/
lemma gcsp_exchanges (country : String) (o : String → YfOutcome) :
    (get_country_stock_profile country o).exchanges
      = ((alistGet COUNTRY_STOCK_PROFILE (_resolve_profile_key country)).getD []).map
          (enrichExchange o) := by
  unfold get_country_stock_profile
  dsimp only
  split
  · rename_i h
    rw [List.isEmpty_iff] at h
    simp [h]
  · rfl

/-- Key resolution only depends on the normalized country string. -/
lemma resolve_key_congr (c₁ c₂ : String) (h : _normalize_country c₁ = _normalize_country c₂) :
    _resolve_profile_key c₁ = _resolve_profile_key c₂ := by
  unfold _resolve_profile_key
  rw [h]

/-- Claim C8: `get_google_maps_link_for_address` on the NYSE headquarters
address.  The claim (and the function's own docstring) promises the
`%20`-space-encoded URL, but `quote_plus` encodes spaces as `+`: the code
returns the `+`-encoded URL instead. -/
theorem c8_maps_plus_encoding_divergence :
    get_google_maps_link_for_address "11 Wall St, New York, NY 10005, USA"
      = "https://www.google.com/maps/search/?api=1&query=11+Wall+St%2C+New+York%2C+NY+10005%2C+USA"
  ∧ get_google_maps_link_for_address "11 Wall St, New York, NY 10005, USA"
      ≠ "https://www.google.com/maps/search/?api=1&query=11%20Wall%20St%2C%20New%20York%2C%20NY%2010005%2C%20USA" := by
  constructor
  · rfl
  · decide

/-- Claim C4: the alias inputs "usa", "united states of america" and "uk"
resolve to the same non-empty exchange lists as the canonical inputs
"united states" and "united kingdom"; the empty placeholder lists stored under
the alias keys never shadow the canonical data. -/
theorem c4_alias_never_shadowed (yfO : String → YfOutcome) :
    (get_country_stock_profile "usa" yfO).exchanges
      = (get_country_stock_profile "united states" yfO).exchanges
  ∧ (get_country_stock_profile "united states of america" yfO).exchanges
      = (get_country_stock_profile "united states" yfO).exchanges
  ∧ (get_country_stock_profile "uk" yfO).exchanges
      = (get_country_stock_profile "united kingdom" yfO).exchanges
  ∧ (get_country_stock_profile "usa" yfO).exchanges.length = 2
  ∧ (get_country_stock_profile "uk" yfO).exchanges.length = 1 := by
  exact ⟨rfl, rfl, rfl, rfl, rfl⟩

/-- Claim C10: any input normalizing to "england" or "great britain" (neither
appears in the stock catalog) yields the same non-empty United Kingdom
exchange list as "united kingdom". -/
theorem c10_england_great_britain (country : String) (yfO : String → YfOutcome)
    (h : _normalize_country country = "england" ∨ _normalize_country country = "great britain") :
    (get_country_stock_profile country yfO).exchanges
      = (get_country_stock_profile "united kingdom" yfO).exchanges
  ∧ (get_country_stock_profile country yfO).exchanges.length = 1 := by
  have hk : _resolve_profile_key country = "united kingdom" := by
    rcases h with h | h
    · rw [resolve_key_congr country "england" (by rw [h]; rfl)]
      rfl
    · rw [resolve_key_congr country "great britain" (by rw [h]; rfl)]
      rfl
  constructor
  · rw [gcsp_exchanges, gcsp_exchanges, hk]
    rfl
  · rw [gcsp_exchanges, hk]
    rfl

/-- Witness for C10 at the concrete input " England " with an all-failing
price provider. -/
theorem c10_england_great_britain_witness :
    (get_country_stock_profile " England " (fun _ => YfOutcome.raise)).exchanges
      = (get_country_stock_profile "united kingdom" (fun _ => YfOutcome.raise)).exchanges
  ∧ (get_country_stock_profile " England " (fun _ => YfOutcome.raise)).exchanges.length = 1 :=
  c10_england_great_britain " England " (fun _ => YfOutcome.raise) (Or.inl rfl)

/-- Claim C3: a stock profile has an `error` field iff its `exchanges` list is
empty, and for a configured country every configured exchange appears in the
result (in order) regardless of how the index price fetches behaved. -/
theorem c3_error_iff_no_exchanges (country : String) (yfO : String → YfOutcome) :
    ((get_country_stock_profile country yfO).error.isSome
       ↔ (get_country_stock_profile country yfO).exchanges = [])
  ∧ ((alistGet COUNTRY_STOCK_PROFILE (_resolve_profile_key country)).getD [] ≠ [] →
       (get_country_stock_profile country yfO).error = none
     ∧ (get_country_stock_profile country yfO).exchanges.map (fun e => e.name)
         = ((alistGet COUNTRY_STOCK_PROFILE (_resolve_profile_key country)).getD []).map
             (fun e => e.name)) := by
  constructor
  · unfold get_country_stock_profile
    dsimp only
    split
    · rename_i h
      rw [List.isEmpty_iff] at h
      simp
    · rename_i h
      rw [List.isEmpty_iff] at h
      simp [h]
  · intro hne
    constructor
    · unfold get_country_stock_profile
      dsimp only
      split
      · rename_i h
        rw [List.isEmpty_iff] at h
        exact absurd h hne
      · rfl
    · rw [gcsp_exchanges, List.map_map]
      rfl

/-- Witness for C3 at the configured country "india" with an all-failing price
provider: no error, both configured exchanges present in order. -/
theorem c3_error_iff_no_exchanges_witness :
    (get_country_stock_profile "india" (fun _ => YfOutcome.raise)).error = none
  ∧ (get_country_stock_profile "india" (fun _ => YfOutcome.raise)).exchanges.map (fun e => e.name)
      = ((alistGet COUNTRY_STOCK_PROFILE (_resolve_profile_key "india")).getD []).map
          (fun e => e.name) :=
  (c3_error_iff_no_exchanges "india" (fun _ => YfOutcome.raise)).2 (by decide)

/-- Equation lemma: the remote branch on a response outcome. -/
lemma gcfcRemote_resp (country : String) (status : Nat) (data : List RCCountry) :
    gcfcRemote country (RestCountriesOutcome.resp status data)
      = if status ≠ 200 then
          { country := pyStrip country,
            error := some ("Failed to resolve currency via RestCountries (status "
              ++ toString status ++ ").") }
        else gcfcFromData country data := rfl

/-- Equation lemma: the rate fetcher with a truthy key delegates to the remote
branch. -/
lemma fx_keyed (cc : String) (api_key : Option String) (o : CurrencyApiOutcome)
    (hk : pyTruthyStr api_key = true) :
    get_exchange_rates_for_currency cc api_key o = fxRemote (pyUpper (pyStrip cc)) o := by
  unfold get_exchange_rates_for_currency
  rw [if_neg (by simp [hk])]

/-- Equation lemma: the rate fetcher with a falsy key returns the
not-configured error and performs no call. -/
lemma fx_nokey (cc : String) (api_key : Option String) (o : CurrencyApiOutcome)
    (hk : pyTruthyStr api_key = false) :
    get_exchange_rates_for_currency cc api_key o
      = { base_currency := some (pyUpper (pyStrip cc)),
          error := some "CURRENCY_API_KEY is not set. Sign up at https://currencyapi.com/ and add it to your .env file." } := by
  unfold get_exchange_rates_for_currency
  rw [if_pos (by simp [hk])]

/-- Equation lemma: the remote rate branch on a response outcome. -/
lemma fxRemote_resp (base : String) (status : Nat) (text : String)
    (data : List (String × RateEntry)) :
    fxRemote base (CurrencyApiOutcome.resp status text data)
      = if status ≠ 200 then
          { base_currency := some base,
            error := some ("CurrencyAPI request failed with status " ++ toString status
              ++ ": " ++ pyTake text 200) }
        else fxFromData base data := rfl

/-- Equation lemma: rate collection from a decoded body. -/
lemma fxFromData_def (base : String) (data : List (String × RateEntry)) :
    fxFromData base data
      = if (collectRates data).isEmpty then
          { base_currency := some base,
            error := some "No valid rates returned by CurrencyAPI." }
        else
          { base_currency := some base,
            rates := some (collectRates data),
            provider := some "currencyapi.com" } := rfl

/-- Exhaustive shape of `get_currency_for_country`: a local-mapping hit, or a
remote branch that yields either an error-only result or a restcountries
success. -/
lemma gcfc_cases (country : String) (o : RestCountriesOutcome) :
    (∃ m, alistGet COUNTRY_CURRENCY_MAP (_normalize_country country) = some m
       ∧ get_currency_for_country country o
           = { country := pyStrip country, currency_name := some m.name,
               currency_code := some m.code, source := some "local_mapping" })
  ∨ (alistGet COUNTRY_CURRENCY_MAP (_normalize_country country) = none
     ∧ ((∃ msg, get_currency_for_country country o
           = { country := pyStrip country, error := some msg })
        ∨ (∃ code nm, get_currency_for_country country o
             = { country := pyStrip country, currency_name := some nm,
                 currency_code := some code, source := some "restcountries" }))) := by
  cases h : alistGet COUNTRY_CURRENCY_MAP (_normalize_country country) with
  | some m =>
    refine Or.inl ⟨m, rfl, ?_⟩
    unfold get_currency_for_country
    rw [h]
  | none =>
    have hr : get_currency_for_country country o = gcfcRemote country o := by
      unfold get_currency_for_country
      rw [h]
    refine Or.inr ⟨rfl, ?_⟩
    rw [hr]
    cases o with
    | raise exc => exact Or.inl ⟨_, rfl⟩
    | resp status data =>
      rw [gcfcRemote_resp]
      by_cases hs : status = 200
      · subst hs
        rw [if_neg (by simp)]
        cases data with
        | nil => exact Or.inl ⟨_, rfl⟩
        | cons first rest =>
          have h3 : gcfcFromData country (first :: rest)
              = gcfcFromCurrencies country first.currencies := rfl
          rw [h3]
          cases first.currencies with
          | nil => exact Or.inl ⟨_, rfl⟩
          | cons p rest2 =>
            obtain ⟨code, info⟩ := p
            exact Or.inr ⟨code, _, rfl⟩
      · rw [if_pos hs]
        exact Or.inl ⟨_, rfl⟩

/-- When the static table misses and the remote call raises, the currency
resolver returns the exception error object. -/
lemma gcfc_raise (country msg : String)
    (h : alistGet COUNTRY_CURRENCY_MAP (_normalize_country country) = none) :
    get_currency_for_country country (RestCountriesOutcome.raise msg)
      = { country := pyStrip country,
          error := some ("Exception while resolving currency: " ++ msg) } := by
  unfold get_currency_for_country
  rw [h]
  rfl

/-- With a truthy API key and a 200 response, the rate fetcher returns the
collected rates, or the no-valid-rates error when none survived coercion. -/
lemma fx_resp200 (cc text : String) (api_key : Option String)
    (data : List (String × RateEntry)) (hk : pyTruthyStr api_key = true) :
    get_exchange_rates_for_currency cc api_key (CurrencyApiOutcome.resp 200 text data)
      = if (collectRates data).isEmpty then
          { base_currency := some (pyUpper (pyStrip cc)),
            error := some "No valid rates returned by CurrencyAPI." }
        else
          { base_currency := some (pyUpper (pyStrip cc)),
            rates := some (collectRates data),
            provider := some "currencyapi.com" } := by
  rw [fx_keyed cc api_key _ hk, fxRemote_resp, if_neg (by simp), fxFromData_def]

/-- Every rate-fetcher result carries an error or a rates map. -/
lemma fx_shape (cc : String) (api_key : Option String) (o : CurrencyApiOutcome) :
    (get_exchange_rates_for_currency cc api_key o).error.isSome
  ∨ (get_exchange_rates_for_currency cc api_key o).rates.isSome := by
  cases hk : pyTruthyStr api_key with
  | false =>
    rw [fx_nokey cc api_key o hk]
    exact Or.inl rfl
  | true =>
    rw [fx_keyed cc api_key o hk]
    cases o with
    | raise exc => exact Or.inl rfl
    | resp status text data =>
      rw [fxRemote_resp]
      by_cases hs : status = 200
      · subst hs
        rw [if_neg (by simp), fxFromData_def]
        cases hcr : (collectRates data).isEmpty with
        | true => exact Or.inl rfl
        | false => exact Or.inr rfl
      · rw [if_pos hs]
        exact Or.inl rfl

/-- When the rates call raises, the result has an error field. -/
lemma fx_raise (cc msg : String) (api_key : Option String) :
    (get_exchange_rates_for_currency cc api_key (CurrencyApiOutcome.raise msg)).error.isSome := by
  cases hk : pyTruthyStr api_key with
  | false => rw [fx_nokey cc api_key _ hk]; rfl
  | true => rw [fx_keyed cc api_key _ hk]; rfl

/-- Membership in the collected-rates list: exactly the target codes present
in `data` whose `value` (defaulted to `0.0`) coerces with `float(...)`. -/
lemma mem_collectRates (data : List (String × RateEntry)) (code : String) (q : ℚ) :
    (code, q) ∈ collectRates data ↔
      code ∈ target_currencies
      ∧ ∃ e, alistGet data code = some e ∧ pyFloat (e.value.getD (PyVal.num 0)) = some q := by
  unfold collectRates
  simp only [List.mem_filterMap, Option.bind_eq_some, Option.map_eq_some', Prod.mk.injEq]
  constructor
  · rintro ⟨c, hc, e, he, q2, hq, rfl, rfl⟩
    exact ⟨hc, e, he, hq⟩
  · rintro ⟨hmem, e, he, hq⟩
    exact ⟨code, hmem, e, he, q, hq, rfl, rfl⟩

/-- Claim C5: on a 200 response, the rates map is exactly the target codes
present in the response whose value coerces (entries that do not coerce are
skipped); the result has no error iff at least one entry survived. -/
theorem c5_partial_success (cc text : String) (api_key : Option String)
    (data : List (String × RateEntry)) (hk : pyTruthyStr api_key = true) :
    ((get_exchange_rates_for_currency cc api_key (CurrencyApiOutcome.resp 200 text data)).error = none
       ↔ collectRates data ≠ [])
  ∧ (collectRates data ≠ [] →
       (get_exchange_rates_for_currency cc api_key (CurrencyApiOutcome.resp 200 text data)).rates
         = some (collectRates data))
  ∧ (∀ code q, (code, q) ∈ collectRates data ↔
       code ∈ target_currencies
       ∧ ∃ e, alistGet data code = some e ∧ pyFloat (e.value.getD (PyVal.num 0)) = some q) := by
  refine ⟨?_, ?_, fun code q => mem_collectRates data code q⟩
  · rw [fx_resp200 cc text api_key data hk]
    cases hcr : collectRates data with
    | nil => simp
    | cons a l => simp
  · intro hne
    rw [fx_resp200 cc text api_key data hk]
    cases hcr : collectRates data with
    | nil => exact absurd hcr hne
    | cons a l => simp

/-- Equation lemma: the remote rate branch on a raised exception. -/
lemma fxRemote_raise (base msg : String) :
    fxRemote base (CurrencyApiOutcome.raise msg)
      = { base_currency := some base,
          error := some ("Exception while calling CurrencyAPI: " ++ msg) } := rfl

/-- The country field of every currency result is the stripped input. -/
lemma gcfc_country_field (country : String) (o : RestCountriesOutcome) :
    (get_currency_for_country country o).country = pyStrip country := by
  rcases gcfc_cases country o with ⟨m, _, heq⟩ | ⟨_, ⟨msg, heq⟩ | ⟨code, nm, heq⟩⟩ <;> rw [heq]

/-- Every currency result carries an error or a currency code. -/
lemma gcfc_error_or_code (country : String) (o : RestCountriesOutcome) :
    (get_currency_for_country country o).error.isSome
  ∨ (get_currency_for_country country o).currency_code.isSome := by
  rcases gcfc_cases country o with ⟨m, _, heq⟩ | ⟨_, ⟨msg, heq⟩ | ⟨code, nm, heq⟩⟩
  · right
    rw [heq]
    rfl
  · left
    rw [heq]
    rfl
  · right
    rw [heq]
    rfl

/-- The country field of every stock profile is the stripped input. -/
lemma gcsp_country_field (country : String) (o : String → YfOutcome) :
    (get_country_stock_profile country o).country = pyStrip country := by
  unfold get_country_stock_profile
  dsimp only
  split <;> rfl

/-- Every stock profile carries an error or a non-empty exchange list. -/
lemma gcsp_error_or_nonempty (country : String) (o : String → YfOutcome) :
    (get_country_stock_profile country o).error.isSome
  ∨ (get_country_stock_profile country o).exchanges ≠ [] := by
  unfold get_country_stock_profile
  dsimp only
  split
  · exact Or.inl rfl
  · rename_i h
    simp only [List.isEmpty_iff] at h
    right
    simpa using h

/-- Claim C1: every component operation is total.  Each returns a result
object for every input and every remote outcome (currency and stock results
carry the stripped country and either an error or a payload; rate results
carry an error or a rates map; the link builder always returns the search
URL; the aggregator always returns a profile), and an exception at a remote
boundary is mapped to an error field, or to a null price for per-index
fetches. -/
theorem c1_components_total (country cc addr : String) (rcO : RestCountriesOutcome)
    (api_key : Option String) (fxO : CurrencyApiOutcome) (yfO : String → YfOutcome) :
    ((get_currency_for_country country rcO).country = pyStrip country)
  ∧ ((get_currency_for_country country rcO).error.isSome
      ∨ (get_currency_for_country country rcO).currency_code.isSome)
  ∧ (∀ msg, rcO = RestCountriesOutcome.raise msg →
      alistGet COUNTRY_CURRENCY_MAP (_normalize_country country) = none →
      (get_currency_for_country country rcO).error.isSome)
  ∧ ((get_exchange_rates_for_currency cc api_key fxO).error.isSome
      ∨ (get_exchange_rates_for_currency cc api_key fxO).rates.isSome)
  ∧ (∀ msg, fxO = CurrencyApiOutcome.raise msg →
      (get_exchange_rates_for_currency cc api_key fxO).error.isSome)
  ∧ (∀ s, yfO s = YfOutcome.raise → _fetch_latest_price s yfO = none)
  ∧ ((get_country_stock_profile country yfO).country = pyStrip country)
  ∧ ((get_country_stock_profile country yfO).error.isSome
      ∨ (get_country_stock_profile country yfO).exchanges ≠ [])
  ∧ (get_google_maps_link_for_address addr
      = "https://www.google.com/maps/search/?api=1&query=" ++ quote_plus (pyStrip addr))
  ∧ ((build_country_financial_profile country rcO api_key fxO yfO).country = pyStrip country) := by
  refine ⟨gcfc_country_field country rcO, gcfc_error_or_code country rcO, ?_,
    fx_shape cc api_key fxO, ?_, ?_, gcsp_country_field country yfO,
    gcsp_error_or_nonempty country yfO, rfl, rfl⟩
  · intro msg hmsg hnone
    subst hmsg
    rw [gcfc_raise country msg hnone]
    rfl
  · intro msg hmsg
    subst hmsg
    exact fx_raise cc msg api_key
  · intro s hs
    unfold _fetch_latest_price
    rw [hs]

/-- Witness for C1: raised exceptions at each boundary turn into an error
field or a null price at a concrete unconfigured country. -/
theorem c1_components_total_witness :
    (get_currency_for_country "Atlantis" (RestCountriesOutcome.raise "down")).error.isSome = true
  ∧ (get_exchange_rates_for_currency "EUR" (some "k") (CurrencyApiOutcome.raise "down")).error.isSome = true
  ∧ _fetch_latest_price "^GSPC" (fun _ => YfOutcome.raise) = none := by
  obtain ⟨_, _, h3, _, h5, h6, _⟩ := c1_components_total "Atlantis" "EUR" "x"
    (RestCountriesOutcome.raise "down") (some "k") (CurrencyApiOutcome.raise "down")
    (fun _ => YfOutcome.raise)
  exact ⟨h3 "down" rfl (by decide), h5 "down" rfl, h6 "^GSPC" rfl⟩

/-- Witness for C5: with a truthy key and a response carrying a numeric USD
entry and a null GBP entry, the result has no error and rates contain exactly
the surviving USD entry. -/
theorem c5_partial_success_witness :
    (get_exchange_rates_for_currency "INR" (some "k")
        (CurrencyApiOutcome.resp 200 ""
          [("USD", { value := some (PyVal.num 1) }),
           ("GBP", { value := some PyVal.pynull })])).error = none
  ∧ (get_exchange_rates_for_currency "INR" (some "k")
        (CurrencyApiOutcome.resp 200 ""
          [("USD", { value := some (PyVal.num 1) }),
           ("GBP", { value := some PyVal.pynull })])).rates
      = some (collectRates
          [("USD", { value := some (PyVal.num 1) }),
           ("GBP", { value := some PyVal.pynull })]) := by
  obtain ⟨h1, h2, _⟩ := c5_partial_success "INR" "" (some "k")
    [("USD", { value := some (PyVal.num 1) }), ("GBP", { value := some PyVal.pynull })] rfl
  exact ⟨h1.mpr (by decide), h2 (by decide)⟩

/-- Claim C2 (amended): the aggregator calls the rate fetcher iff the currency
result has a `currency_code`; when the code is absent, `exchange_rates` is
exactly the fallback object with the error message "Could not determine
currency code for this country; FX rates unavailable." and does not depend on
the rates oracle at all. -/
theorem c2_fx_iff_currency_code (country : String) (rcO : RestCountriesOutcome)
    (api_key : Option String) (fxO fxAlt : CurrencyApiOutcome) (yfO : String → YfOutcome) :
    (∀ code, (get_currency_for_country (pyStrip country) rcO).currency_code = some code →
       (build_country_financial_profile country rcO api_key fxO yfO).exchange_rates
         = get_exchange_rates_for_currency code api_key fxO)
  ∧ ((get_currency_for_country (pyStrip country) rcO).currency_code = none →
       (build_country_financial_profile country rcO api_key fxO yfO).exchange_rates
         = { base_currency := none, rates := none, provider := none,
             error := some "Could not determine currency code for this country; FX rates unavailable." }
     ∧ (build_country_financial_profile country rcO api_key fxO yfO).exchange_rates
         = (build_country_financial_profile country rcO api_key fxAlt yfO).exchange_rates) := by
  constructor
  · intro code hcode
    unfold build_country_financial_profile
    dsimp only
    rw [hcode]
  · intro hnone
    constructor
    · unfold build_country_financial_profile
      dsimp only
      rw [hnone]
    · unfold build_country_financial_profile
      dsimp only
      rw [hnone]

/-- Counterexample for C2 as frozen: at a country with no resolvable currency
the fallback object's message is "Could not determine currency code for this
country; FX rates unavailable.", not the claimed "could not determine currency
code; FX rates unavailable". -/
theorem c2_exact_error_object_counterexample :
    (build_country_financial_profile "Atlantis" (RestCountriesOutcome.resp 200 []) none
        (CurrencyApiOutcome.raise "x") (fun _ => YfOutcome.raise)).currency.currency_code = none
  ∧ (build_country_financial_profile "Atlantis" (RestCountriesOutcome.resp 200 []) none
        (CurrencyApiOutcome.raise "x") (fun _ => YfOutcome.raise)).exchange_rates
      ≠ { base_currency := none, rates := none, provider := none,
          error := some "could not determine currency code; FX rates unavailable" } := by
  decide

/-- Witness for C2 at the concrete input "India": the currency code resolves
to INR and `exchange_rates` is exactly the rate fetcher's result for INR. -/
theorem c2_fx_iff_currency_code_witness :
    (build_country_financial_profile "India" (RestCountriesOutcome.raise "z") none
        (CurrencyApiOutcome.raise "a") (fun _ => YfOutcome.raise)).exchange_rates
      = get_exchange_rates_for_currency "INR" none (CurrencyApiOutcome.raise "a") :=
  (c2_fx_iff_currency_code "India" (RestCountriesOutcome.raise "z") none
    (CurrencyApiOutcome.raise "a") (CurrencyApiOutcome.raise "b")
    (fun _ => YfOutcome.raise)).1 "INR" (by decide)

/-- Counterexample for C6 as frozen: an entry whose `value` field is absent is
defaulted to `0.0` and included, so a rate can be non-positive and need not be
a value the provider returned. -/
theorem c6_nonpositive_rate_counterexample :
    (get_exchange_rates_for_currency "INR" (some "k")
        (CurrencyApiOutcome.resp 200 "" [("USD", { value := none })])).rates
      = some [("USD", 0)]
  ∧ ¬ ((0 : ℚ) > 0) := by
  constructor
  · decide
  · exact lt_irrefl 0

/-- Claim C6 (amended): whenever a rates map is present, its keys are a subset
of the four target codes and each value is the `float(...)` coercion of the
corresponding provider entry's `value` field (defaulted to `0.0` when absent);
entries with a null or non-numeric value are never included.  Positivity is
not guaranteed. -/
theorem c6_rates_from_provider_entries (cc : String) (api_key : Option String)
    (o : CurrencyApiOutcome) (rs : List (String × ℚ))
    (h : (get_exchange_rates_for_currency cc api_key o).rates = some rs) :
    ∀ code q, (code, q) ∈ rs →
      code ∈ target_currencies
      ∧ ∃ text data e, o = CurrencyApiOutcome.resp 200 text data
          ∧ alistGet data code = some e
          ∧ pyFloat (e.value.getD (PyVal.num 0)) = some q := by
  intro code q hmem
  cases hk : pyTruthyStr api_key with
  | false =>
    rw [fx_nokey cc api_key o hk] at h
    exact absurd h (by simp)
  | true =>
    rw [fx_keyed cc api_key o hk] at h
    cases o with
    | raise msg =>
      rw [fxRemote_raise] at h
      exact absurd h (by simp)
    | resp status text data =>
      rw [fxRemote_resp] at h
      by_cases hs : status = 200
      · subst hs
        rw [if_neg (by simp), fxFromData_def] at h
        cases hcr : (collectRates data).isEmpty with
        | true =>
          rw [if_pos hcr] at h
          exact absurd h (by simp)
        | false =>
          simp only [hcr, Bool.false_eq_true, if_false, Option.some.injEq] at h
          subst h
          obtain ⟨hc, e, he, hq⟩ := (mem_collectRates data code q).mp hmem
          exact ⟨hc, text, data, e, rfl, he, hq⟩
      · rw [if_pos hs] at h
        exact absurd h (by simp)

/-- Witness for C6 (amended) at a concrete 200 response with a numeric USD
value. -/
theorem c6_rates_from_provider_entries_witness :
    "USD" ∈ target_currencies
  ∧ ∃ text data e,
      CurrencyApiOutcome.resp 200 "" [("USD", { value := some (PyVal.num 2) })]
        = CurrencyApiOutcome.resp 200 text data
      ∧ alistGet data "USD" = some e
      ∧ pyFloat (e.value.getD (PyVal.num 0)) = some 2 :=
  c6_rates_from_provider_entries "INR" (some "k")
    (CurrencyApiOutcome.resp 200 "" [("USD", { value := some (PyVal.num 2) })])
    [("USD", 2)] (by decide) "USD" 2 (by decide)

/-- Counterexample for C7 as frozen: a successful remote resolution labels
`source` with the string "restcountries", not the claimed enum value
"remote_lookup". -/
theorem c7_source_restcountries_counterexample :
    (get_currency_for_country "Atlantis"
        (RestCountriesOutcome.resp 200
          [{ currencies := [("ATL", { name := some "Atlantean dollar" })] }])).source
      = some "restcountries"
  ∧ (some "restcountries" : Option String) ≠ some "remote_lookup" := by
  decide

/-- Claim C7 (amended): `source` is present exactly on success and is one of
the two values "local_mapping" (static-table hit) and "restcountries" (remote
lookup); "restcountries" implies the static table missed. -/
theorem c7_source_enum (country : String) (rcO : RestCountriesOutcome) :
    ((get_currency_for_country country rcO).source.isSome
       ↔ (get_currency_for_country country rcO).currency_code.isSome)
  ∧ (∀ s, (get_currency_for_country country rcO).source = some s →
       s = "local_mapping" ∨ s = "restcountries")
  ∧ ((alistGet COUNTRY_CURRENCY_MAP (_normalize_country country)).isSome →
       (get_currency_for_country country rcO).source = some "local_mapping")
  ∧ ((get_currency_for_country country rcO).source = some "restcountries" →
       alistGet COUNTRY_CURRENCY_MAP (_normalize_country country) = none) := by
  rcases gcfc_cases country rcO with ⟨m, hm, heq⟩ | ⟨hn, ⟨msg, heq⟩ | ⟨code, nm, heq⟩⟩
  · refine ⟨by rw [heq]; exact Iff.rfl, ?_, fun _ => by rw [heq], ?_⟩
    · intro s hs
      rw [heq] at hs
      exact Or.inl (Option.some.inj hs).symm
    · intro habs
      rw [heq] at habs
      exact absurd (Option.some.inj habs) (by decide)
  · refine ⟨by rw [heq], ?_, ?_, fun _ => hn⟩
    · intro s hs
      rw [heq] at hs
      exact absurd hs (by simp)
    · intro hsome
      rw [hn] at hsome
      simp at hsome
  · refine ⟨by rw [heq]; exact Iff.rfl, ?_, ?_, fun _ => hn⟩
    · intro s hs
      rw [heq] at hs
      exact Or.inr (Option.some.inj hs).symm
    · intro hsome
      rw [hn] at hsome
      simp at hsome

/-- Witness for C7 at the concrete static-table country "India". -/
theorem c7_source_enum_witness :
    (get_currency_for_country "India" (RestCountriesOutcome.raise "x")).source
      = some "local_mapping" :=
  (c7_source_enum "India" (RestCountriesOutcome.raise "x")).2.2.1 (by decide)

/-- Counterexample for C9 as frozen: the `currencies` request parameter always
joins all four fixed targets, so for the base INR (the code "India" resolves
to) INR itself is among the requested target codes. -/
theorem c9_inr_requested_against_itself :
    alistGet (currencyApiParams "k" "INR") "currencies" = some "USD,INR,GBP,EUR"
  ∧ "INR" ∈ target_currencies
  ∧ (get_currency_for_country "India" (RestCountriesOutcome.raise "x")).currency_code
      = some "INR" := by
  refine ⟨by decide, by decide, by decide⟩

/-- Claim C9 (amended): the India end-to-end profile with healthy providers
has currency code INR, a rates map containing USD (with INR among the
requested targets, being one of the four fixed codes), the two exchanges NSE
then BSE in order, and a maps link built from NSE's headquarters address. -/
theorem c9_india_profile (rcO : RestCountriesOutcome) (yfO : String → YfOutcome) :
    (build_country_financial_profile "India" rcO (some "key") fxHealthyIndia yfO).currency.currency_code
      = some "INR"
  ∧ ("USD", (12 : ℚ))
      ∈ ((build_country_financial_profile "India" rcO (some "key") fxHealthyIndia yfO).exchange_rates.rates.getD [])
  ∧ "INR" ∈ target_currencies
  ∧ ((build_country_financial_profile "India" rcO (some "key") fxHealthyIndia yfO).stocks.exchanges.map
      (fun e => e.name))
      = ["National Stock Exchange of India (NSE)", "Bombay Stock Exchange (BSE)"]
  ∧ (build_country_financial_profile "India" rcO (some "key") fxHealthyIndia yfO).stocks.exchanges.length = 2
  ∧ (build_country_financial_profile "India" rcO (some "key") fxHealthyIndia yfO).google_maps_link
      = some (get_google_maps_link_for_address
          "Exchange Plaza, Bandra Kurla Complex, Bandra East, Mumbai, Maharashtra 400051, India") := by
  refine ⟨rfl, ?_, by decide, rfl, rfl, rfl⟩
  show ("USD", (12 : ℚ)) ∈ [("USD", (12 : ℚ)), ("INR", 1), ("GBP", 9), ("EUR", 11)]
  decide
